import Mathlib

/-!
Verification of the message/event schema and metrics-tracking utility
(`util/pydantic_classes.py` and `util/metrics.py`).

Shallow embedding conventions:
  * pydantic model classes become Lean structures; fields typed
    `Optional`-like in the source (declared with default `None`) become
    `Option` fields;
  * `float` wall-clock values are modelled as rationals (`ℚ`);
  * `Dict[str, Any]` payloads are modelled as association lists
    `List (String × String)` — the code only ever reads the `text` and
    `type` entries, both of which the schema expects to be strings;
  * Python attribute/key accesses that can raise (`AttributeError` on
    `None`, `KeyError` on a missing dict key, `TypeError` on
    `round(None, 2)`) become `Except String` results;
  * `time.time()` is passed in explicitly as a parameter;
  * pydantic construction-time validation (required fields, closed enum
    sets) is modelled by explicit constructor functions returning
    `Except String`, with `Option` arguments standing for
    provided/absent keyword arguments.
-/

/-- One selectable option (`Choice`): both fields default to `""`. -/
structure Choice where
  label : String := ""
  value : String := ""
deriving Repr, DecidableEq

/-- `BotButtonMessage`: text above the buttons, list of choices, active flag. -/
structure BotButtonMessage where
  text : String := ""
  choices : List Choice
  active : Bool := true
deriving Repr, DecidableEq

/-- Pydantic validation of `BotButtonMessage` construction: `text` and
`active` have defaults, while `choices` is declared `Field(...)`, i.e.
required — it must be present, but no `min_length` constraint is declared,
so any list (including `[]`) validates.  `none` arguments model omitted
keyword arguments. -/
def BotButtonMessage.validate (text : Option String) (choices : Option (List Choice))
    (active : Option Bool) : Except String BotButtonMessage :=
  match choices with
  | none => Except.error "ValidationError: choices Field required"
  | some cs => Except.ok { text := text.getD "", choices := cs, active := active.getD true }

/-- `BotDropdownMessage`: like the button message, but `choices` defaults to `[]`. -/
structure BotDropdownMessage where
  text : String := ""
  choices : List Choice := []
  active : Bool := true
deriving Repr, DecidableEq

/-- `BotHTMLMessage`: a string of HTML. -/
structure BotHTMLMessage where
  html : String := ""
deriving Repr, DecidableEq

/-- `BotImageMessage`: the image's hosted URL. -/
structure BotImageMessage where
  url : String := ""
deriving Repr, DecidableEq

/-- `BotTextMessage`: text content plus markdown flag. -/
structure BotTextMessage where
  text : String := "Hello World"
  useMarkdown : Bool := true
deriving Repr, DecidableEq

/-- The closed enum `BotMessageTypes`. -/
inductive BotMessageTypes where
  | text
  | image
  | html
  | button
  | dropdown
deriving Repr, DecidableEq

/-- Pydantic enum validation: a raw string is accepted exactly when it is
the value of one of the five members. -/
def BotMessageTypes.parse : String → Option BotMessageTypes
  | "text" => some .text
  | "image" => some .image
  | "html" => some .html
  | "button" => some .button
  | "dropdown" => some .dropdown
  | _ => none

/-- The `BotPayload` union of the five message payload variants. -/
inductive BotPayload where
  | text (m : BotTextMessage)
  | image (m : BotImageMessage)
  | html (m : BotHTMLMessage)
  | button (m : BotButtonMessage)
  | dropdown (m : BotDropdownMessage)
deriving Repr, DecidableEq

/-- Python attribute access `payload.text`: the text, button and dropdown
variants carry a `text` attribute; image and html do not (`none` models
the `AttributeError`). -/
def BotPayload.textAttr : BotPayload → Option String
  | .text m => some m.text
  | .button m => some m.text
  | .dropdown m => some m.text
  | .image _ => none
  | .html _ => none

/-- `BotMessage`: the tagged envelope pairing a `type` tag with a payload. -/
structure BotMessage where
  type : BotMessageTypes
  payload : BotPayload
deriving Repr, DecidableEq

/-- Pydantic validation of `BotMessage` construction: the `type` string
must parse as a member of the closed enum, and the payload must be a
member of the `BotPayload` union (here: any already well-shaped variant
value, as pydantic smart-union validation accepts a model instance of any
union member).  No validator relates the two fields. -/
def BotMessage.validate (typeStr : String) (payload : BotPayload) :
    Except String BotMessage :=
  match BotMessageTypes.parse typeStr with
  | none => Except.error "ValidationError: type must be one of the BotMessageTypes values"
  | some ty => Except.ok { type := ty, payload := payload }

/-- The computed field `messageSize`:
`0 if self.type != BotMessageTypes.text else len(self.payload.text)`.
When the branch reads `payload.text` on a payload without that attribute,
Python raises `AttributeError`, modelled as `Except.error`. -/
def BotMessage.messageSize (m : BotMessage) : Except String Nat :=
  if m.type ≠ BotMessageTypes.text then Except.ok 0
  else
    match m.payload.textAttr with
    | some t => Except.ok t.length
    | none => Except.error "AttributeError: payload has no attribute text"

/-- The `Directions` enum. -/
inductive Directions where
  | incoming
  | outgoing
deriving Repr, DecidableEq

/-- `Event`: identifiers, timestamp, direction, raw payload map and the
bot's replies.  Identifier generation (`nanoid`) and creation-time
defaults are nondeterministic inputs; the structure holds the resulting
values.  `sentOn` is an epoch timestamp modelled as `ℚ`. -/
structure Event where
  userId : String
  conversationId : String
  id : String
  sentOn : ℚ := 0
  direction : Directions := .incoming
  payload : List (String × String) := []
  botReply : List BotMessage := []
deriving Repr, DecidableEq

/-- Python `d[k]` on the payload dict: `some` the stored value, `none`
models the `KeyError`. -/
def dictGet (d : List (String × String)) (k : String) : Option String :=
  (d.find? (fun p => p.1 = k)).map (fun p => p.2)

/-- `BotMetrics`: all stored fields; the three nullable ones are declared
with default `None` in the source, `success` defaults to `True`. -/
structure BotMetrics where
  event : Option Event := none
  startTime : Option ℚ := none
  endTime : Option ℚ := none
  success : Bool := true
deriving Repr, DecidableEq

/-- Computed field `responseTime`: `endTime - startTime` when both are
set (`is not None`), otherwise `0`. -/
def BotMetrics.responseTime (m : BotMetrics) : ℚ :=
  match m.startTime, m.endTime with
  | some s, some e => e - s
  | _, _ => 0

/-- Computed field `userInputSize`: `len(self.event.payload["text"])`.
Reading `payload` on an unset (`None`) event raises `AttributeError`;
a missing `"text"` key raises `KeyError`. -/
def BotMetrics.userInputSize (m : BotMetrics) : Except String Nat :=
  match m.event with
  | none => Except.error "AttributeError: NoneType has no attribute payload"
  | some ev =>
    match dictGet ev.payload "text" with
    | some s => Except.ok s.length
    | none => Except.error "KeyError: text"

/-- Computed field `botOutputSize`:
`functools.reduce(lambda s, r: s + r.messageSize, self.event.botReply, 0)`,
a left fold that propagates the first error raised by a reply's
`messageSize`. -/
def BotMetrics.botOutputSize (m : BotMetrics) : Except String Nat :=
  match m.event with
  | none => Except.error "AttributeError: NoneType has no attribute botReply"
  | some ev =>
    ev.botReply.foldlM (fun s r => (r.messageSize).map (fun n => s + n)) 0

/-- Computed field `userId`: pass-through from the event. -/
def BotMetrics.userId (m : BotMetrics) : Except String String :=
  match m.event with
  | none => Except.error "AttributeError: NoneType has no attribute userId"
  | some ev => Except.ok ev.userId

/-- Computed field `conversationId`: pass-through from the event. -/
def BotMetrics.conversationId (m : BotMetrics) : Except String String :=
  match m.event with
  | none => Except.error "AttributeError: NoneType has no attribute conversationId"
  | some ev => Except.ok ev.conversationId

/-- Computed field `inputMessageType`: `self.event.payload["type"]`. -/
def BotMetrics.inputMessageType (m : BotMetrics) : Except String String :=
  match m.event with
  | none => Except.error "AttributeError: NoneType has no attribute payload"
  | some ev =>
    match dictGet ev.payload "type" with
    | some s => Except.ok s
    | none => Except.error "KeyError: type"

/-- `trackStart`: `self.startTime = time.time()`; the wall-clock read is
the explicit `now` argument. -/
def BotMetrics.trackStart (m : BotMetrics) (now : ℚ) : BotMetrics :=
  { m with startTime := some now }

/-- `trackEnd`: `self.endTime = time.time()`. -/
def BotMetrics.trackEnd (m : BotMetrics) (now : ℚ) : BotMetrics :=
  { m with endTime := some now }

/-- `captureEvent`: `self.event = event`. -/
def BotMetrics.captureEvent (m : BotMetrics) (event : Event) : BotMetrics :=
  { m with event := some event }

/-- Python 3 `round(q, 2)`: round to 2 decimal places, ties to even
(idealised over exact rationals). -/
def pyRound2 (q : ℚ) : ℚ :=
  let x : ℚ := q * 100
  let f : ℤ := Rat.floor x
  let r : ℚ := x - (f : ℚ)
  let n : ℤ :=
    if r > 1 / 2 then f + 1
    else if r < 1 / 2 then f
    else if f % 2 = 0 then f else f + 1
  (n : ℚ) / 100

/-- `ConsoleMetrics.persist`: builds the row of the console table.  The
cells are computed left to right exactly as in the `add_row` call;
`round(metrics.startTime, 2)` raises `TypeError` when `startTime` is
`None`, and each computed-field read can raise as modelled above.  The
result is the list of rendered cells (the `PrettyTable` layout itself is
a display concern). -/
def ConsoleMetrics.persist (m : BotMetrics) : Except String (List String) := do
  let whenCell ←
    match m.startTime with
    | some t => Except.ok (toString (pyRound2 t))
    | none => Except.error "TypeError: round does not accept NoneType"
  let successCell := if m.success then "✅" else "🔴"
  let convCell ← m.conversationId
  let userCell ← m.userId
  let typeCell ← m.inputMessageType
  let inCell ← m.userInputSize
  let outCell ← m.botOutputSize
  Except.ok [whenCell, successCell, convCell, userCell, typeCell,
    toString inCell, toString outCell,
    "⚡ " ++ toString (pyRound2 m.responseTime) ++ " seconds"]

/-- The mutations available on the metrics record inside the tracked
scope body (each one a method of `BotMetrics`, with the wall-clock read
made explicit). -/
inductive MetricsAction where
  | captureEvent (ev : Event)
  | trackStart (now : ℚ)
  | trackEnd (now : ℚ)
deriving Repr, DecidableEq

/-- Apply one scope-body mutation to the record. -/
def applyAction (m : BotMetrics) : MetricsAction → BotMetrics
  | .captureEvent ev => m.captureEvent ev
  | .trackStart now => m.trackStart now
  | .trackEnd now => m.trackEnd now

/-- `TrackChatbotResponseMetrics.__enter__`: constructs a fresh
`BotMetrics()` (all defaults), stores it on the tracker and returns it. -/
def TrackChatbotResponseMetrics.enter : BotMetrics := {}

/-- `TrackChatbotResponseMetrics.__exit__`: if an exception type is
present, sets `success = False` on the stored record; then persists the
record; returns `True` (which tells Python to suppress the exception).
Result: the record passed to `persist`, and the `__exit__` return
value. -/
def TrackChatbotResponseMetrics.exit (m : BotMetrics) (excType : Bool) :
    BotMetrics × Bool :=
  let m := if excType then { m with success := false } else m
  (m, true)

/-- Observable outcome of one `with TrackChatbotResponseMetrics():`
block: the records handed to the persistence strategy (in order), and
whether an exception reaches the caller of the scope. -/
structure ScopeResult where
  persisted : List BotMetrics
  raisedToCaller : Bool
deriving Repr, DecidableEq

/-- One full execution of the tracked scope.  The body performs the
mutations `actions` on the record returned by `__enter__` (an execution
that raises midway has performed some prefix of its mutations — any such
prefix is itself a value of `actions`) and then either completes
normally (`bodyRaises = false`) or raises (`bodyRaises = true`).
`__exit__` runs in both cases; the exception propagates to the caller
exactly when the body raised and `__exit__` returned a falsy value. -/
def runTrackedScope (actions : List MetricsAction) (bodyRaises : Bool) : ScopeResult :=
  let m0 := TrackChatbotResponseMetrics.enter
  let m1 := actions.foldl applyAction m0
  let (persistedRec, exitReturn) := TrackChatbotResponseMetrics.exit m1 bodyRaises
  { persisted := [persistedRec], raisedToCaller := bodyRaises && !exitReturn }

/-! Concrete fixtures used by witnesses and counterexamples. -/

/-- A fully populated event: payload has the expected `text` and `type`
entries; the bot replied with one text message of 8 characters and one
image message. -/
def evHello : Event :=
  { userId := "u", conversationId := "c", id := "e",
    payload := [("text", "hello"), ("type", "text")],
    botReply := [ { type := BotMessageTypes.text,
                    payload := BotPayload.text { text := "hi there", useMarkdown := true } },
                  { type := BotMessageTypes.image,
                    payload := BotPayload.image { url := "pic" } } ] }

/-- A fully populated metrics record over `evHello`. -/
def mFull : BotMetrics :=
  { event := some evHello, startTime := some 10, endTime := some 12, success := true }

/-! Helper lemmas shared by the claim theorems. -/

/-- None of the scope-body mutations touches the `success` flag. -/
theorem foldl_applyAction_success (actions : List MetricsAction) (m : BotMetrics) :
    (actions.foldl applyAction m).success = m.success := by
  induction actions generalizing m with
  | nil => rfl
  | cons a rest ih =>
    cases a <;>
      simp [List.foldl_cons, applyAction, BotMetrics.captureEvent,
        BotMetrics.trackStart, BotMetrics.trackEnd, ih]

/-- The left fold of `botOutputSize` produces the accumulator plus the
sum of the reply sizes, whenever each reply's `messageSize` is defined
(`Forall₂` pairs each reply with its size). -/
theorem foldlM_messageSize_eq (l : List BotMessage) (ns : List Nat)
    (h : List.Forall₂ (fun r n => r.messageSize = Except.ok n) l ns) (a : Nat) :
    l.foldlM (fun s r => (r.messageSize).map (fun n => s + n)) a =
      Except.ok (a + ns.sum) := by
  induction h generalizing a with
  | nil => rfl
  | cons hr _ ih =>
    rename_i r b l₁ l₂ _
    simp only [List.foldlM_cons, hr]
    show List.foldlM (fun s r => (r.messageSize).map (fun n => s + n)) (a + b) l₁ =
      Except.ok (a + (b :: l₂).sum)
    rw [ih]
    simp [List.sum_cons, Nat.add_assoc]

/-! Claim theorems. -/

/-- C1: On every execution of the tracked scope, exactly one record is
passed to the persistence strategy; its `success` flag is `true` when the
scope body completed without error and `false` when it raised; and no
error ever propagates to the caller of the scope (the suppression of
`__exit__` returning `True`). -/
theorem tracked_scope_exit_policy (actions : List MetricsAction) (errored : Bool) :
    (runTrackedScope actions errored).persisted.map BotMetrics.success = [!errored] ∧
    (runTrackedScope actions errored).raisedToCaller = false := by
  constructor
  · cases errored with
    | false =>
      simp [runTrackedScope, TrackChatbotResponseMetrics.exit,
        foldl_applyAction_success, TrackChatbotResponseMetrics.enter]
    | true =>
      simp [runTrackedScope, TrackChatbotResponseMetrics.exit]
  · simp [runTrackedScope, TrackChatbotResponseMetrics.exit]

/-- C5: For a `BotMessage` of type `text`, `messageSize` is the character
length of `payload.text` (whenever that attribute exists); for every
other type it is `0` (the payload is never read in that branch). -/
theorem messageSize_spec (m : BotMessage) :
    (m.type = BotMessageTypes.text → ∀ s, m.payload.textAttr = some s →
        m.messageSize = Except.ok s.length) ∧
    (m.type ≠ BotMessageTypes.text → m.messageSize = Except.ok 0) := by
  constructor
  · intro ht s hs
    simp [BotMessage.messageSize, ht, hs]
  · intro ht
    simp [BotMessage.messageSize, ht]

/-- C5 witness: a text message with payload text of length 2 has
`messageSize` 2, and an image-typed message has `messageSize` 0. -/
theorem messageSize_spec_witness :
    (BotMessage.mk BotMessageTypes.text
        (BotPayload.text { text := "hi", useMarkdown := true })).messageSize = Except.ok 2 ∧
    (BotMessage.mk BotMessageTypes.image (BotPayload.image { url := "u" })).messageSize =
      Except.ok 0 :=
  ⟨(messageSize_spec _).1 rfl "hi" rfl, (messageSize_spec _).2 (by decide)⟩

/-- C6: `responseTime` is `endTime - startTime` when both timestamps are
set, and `0` when either is unset. -/
theorem responseTime_spec (m : BotMetrics) :
    (∀ s e, m.startTime = some s → m.endTime = some e → m.responseTime = e - s) ∧
    (m.startTime = none ∨ m.endTime = none → m.responseTime = 0) := by
  constructor
  · intro s e hs he
    simp [BotMetrics.responseTime, hs, he]
  · intro h
    rcases h with h | h <;> cases hs : m.startTime <;> cases he : m.endTime <;>
      simp_all [BotMetrics.responseTime]

/-- C6 witness: with startTime 10 and endTime 12 the responseTime is 2;
on the fresh record it is 0. -/
theorem responseTime_spec_witness :
    BotMetrics.responseTime { startTime := some 10, endTime := some 12 } = 12 - 10 ∧
    BotMetrics.responseTime {} = 0 :=
  ⟨(responseTime_spec _).1 10 12 rfl rfl, (responseTime_spec _).2 (Or.inl rfl)⟩

/-- C9: `__enter__` returns a fresh, empty `BotMetrics` record: `event`,
`startTime` and `endTime` unset and `success` defaulting to `true` (the
record is constructed anew on each entry, so scopes never share one). -/
theorem scope_entry_fresh_record :
    TrackChatbotResponseMetrics.enter.event = none ∧
    TrackChatbotResponseMetrics.enter.startTime = none ∧
    TrackChatbotResponseMetrics.enter.endTime = none ∧
    TrackChatbotResponseMetrics.enter.success = true :=
  ⟨rfl, rfl, rfl, rfl⟩

/-- C10: each mutator touches exactly one stored field: `trackStart` sets
only `startTime`, `trackEnd` only `endTime`, `captureEvent` only `event`;
none of them changes `success` or any other field. -/
theorem mutators_touch_one_field (m : BotMetrics) (t u : ℚ) (ev : Event) :
    ((m.trackStart t).startTime = some t ∧ (m.trackStart t).event = m.event ∧
      (m.trackStart t).endTime = m.endTime ∧ (m.trackStart t).success = m.success) ∧
    ((m.trackEnd u).endTime = some u ∧ (m.trackEnd u).event = m.event ∧
      (m.trackEnd u).startTime = m.startTime ∧ (m.trackEnd u).success = m.success) ∧
    ((m.captureEvent ev).event = some ev ∧ (m.captureEvent ev).startTime = m.startTime ∧
      (m.captureEvent ev).endTime = m.endTime ∧ (m.captureEvent ev).success = m.success) :=
  ⟨⟨rfl, rfl, rfl, rfl⟩, ⟨rfl, rfl, rfl, rfl⟩, ⟨rfl, rfl, rfl, rfl⟩⟩

/-- C7: with a captured event whose replies all have a defined
`messageSize`, `botOutputSize` is the sum of those sizes, for every
reply-list length including zero. -/
theorem botOutputSize_is_sum (m : BotMetrics) (ev : Event) (sizes : List Nat)
    (hev : m.event = some ev)
    (hsz : List.Forall₂ (fun r n => r.messageSize = Except.ok n) ev.botReply sizes) :
    m.botOutputSize = Except.ok sizes.sum := by
  simp only [BotMetrics.botOutputSize, hev]
  rw [foldlM_messageSize_eq ev.botReply sizes hsz 0]
  simp

/-- C7 witness: `mFull` has two replies of sizes 8 and 0, so
`botOutputSize` is 8; a record over an event with no replies has
`botOutputSize` 0. -/
theorem botOutputSize_is_sum_witness :
    mFull.botOutputSize = Except.ok 8 ∧
    BotMetrics.botOutputSize
        { event := some { userId := "u", conversationId := "c", id := "e" } } =
      Except.ok 0 :=
  ⟨botOutputSize_is_sum mFull evHello [8, 0] rfl
      (List.Forall₂.cons rfl (List.Forall₂.cons rfl List.Forall₂.nil)),
    botOutputSize_is_sum { event := some { userId := "u", conversationId := "c", id := "e" } }
      { userId := "u", conversationId := "c", id := "e" } [] rfl List.Forall₂.nil⟩

/-- C8: when `event` is unset, reading any of `userInputSize`,
`botOutputSize` or `inputMessageType` fails (they access the event
unconditionally). -/
theorem derived_reads_fail_without_event (m : BotMetrics) (h : m.event = none) :
    m.userInputSize.isOk = false ∧ m.botOutputSize.isOk = false ∧
    m.inputMessageType.isOk = false := by
  refine ⟨?_, ?_, ?_⟩ <;>
    simp [BotMetrics.userInputSize, BotMetrics.botOutputSize,
      BotMetrics.inputMessageType, h, Except.isOk, Except.toBool]

/-- C8 witness: on the fresh record (no `captureEvent` call) all three
derived reads fail. -/
theorem derived_reads_fail_without_event_witness :
    (BotMetrics.userInputSize {}).isOk = false ∧
    (BotMetrics.botOutputSize {}).isOk = false ∧
    (BotMetrics.inputMessageType {}).isOk = false :=
  derived_reads_fail_without_event {} rfl

/-- C2 counterexample: the console strategy raises on the fresh record
(`round(None, 2)` is a `TypeError`; the event reads also fail), refuting
the claim that `persist` completes normally on every record. -/
theorem console_persist_fresh_record_raises :
    (ConsoleMetrics.persist {}).isOk = false := rfl

/-- C2 amended: the console strategy completes normally on a record whose
`startTime` and `event` are set, whose event payload has `text` and
`type` entries, and whose replies all have defined sizes; it is not
defensive about unset fields (see the fresh-record counterexample). -/
theorem console_persist_ok_of_populated (m : BotMetrics) (ev : Event) (t : ℚ)
    (v w : String) (n : Nat)
    (hst : m.startTime = some t) (hev : m.event = some ev)
    (htext : dictGet ev.payload "text" = some v)
    (htype : dictGet ev.payload "type" = some w)
    (hout : m.botOutputSize = Except.ok n) :
    (ConsoleMetrics.persist m).isOk = true := by
  simp only [ConsoleMetrics.persist, hst, hev, hout, BotMetrics.conversationId,
    BotMetrics.userId, BotMetrics.inputMessageType, BotMetrics.userInputSize,
    htext, htype, Except.isOk, Except.toBool]
  rfl

/-- C2 witness for the amended claim: the fully populated record `mFull`
persists without error. -/
theorem console_persist_ok_of_populated_witness :
    (ConsoleMetrics.persist mFull).isOk = true :=
  console_persist_ok_of_populated mFull evHello 10 "hello" "text" 8 rfl rfl rfl rfl
    (botOutputSize_is_sum mFull evHello [8, 0] rfl
      (List.Forall₂.cons rfl (List.Forall₂.cons rfl List.Forall₂.nil)))

/-- C3 counterexample: constructing a `BotButtonMessage` with an empty
`choices` list succeeds — no ValidationError is raised. -/
theorem button_empty_choices_validates :
    BotButtonMessage.validate none (some []) none =
      Except.ok { text := "", choices := [], active := true } := rfl

/-- C3 amended: the schema requires `choices` to be present (omitting it
raises a ValidationError) but not non-empty: any provided list, including
the empty one, validates. -/
theorem button_choices_required_not_nonempty (t : Option String) (a : Option Bool)
    (cs : List Choice) :
    (BotButtonMessage.validate t none a).isOk = false ∧
    (BotButtonMessage.validate t (some cs) a).isOk = true :=
  ⟨rfl, rfl⟩

/-- C4 counterexample: a `BotMessage` with type `image` and a text-shaped
payload constructs successfully — the tag and the payload shape disagree
and no ValidationError is raised. -/
theorem botmessage_mismatched_tag_validates :
    BotMessage.validate "image" (BotPayload.text { text := "hello", useMarkdown := true }) =
      Except.ok { type := BotMessageTypes.image,
                  payload := BotPayload.text { text := "hello", useMarkdown := true } } := rfl

/-- C4 amended: `BotMessage` validation checks the type tag against the
closed enum set independently of the payload: the outcome never depends
on the payload's shape, and in particular every payload variant is
accepted alongside the `image` tag. -/
theorem botmessage_validation_ignores_payload_shape (s : String) (p q : BotPayload) :
    (BotMessage.validate s p).isOk = (BotMessage.validate s q).isOk ∧
    BotMessage.validate "image" p =
      Except.ok { type := BotMessageTypes.image, payload := p } := by
  constructor
  · unfold BotMessage.validate
    cases BotMessageTypes.parse s <;> rfl
  · rfl
